import Mathlib

/-!
# Beat-em-up simulation core: shallow embedding and verification

This file embeds the simulation core of `src/main.cpp` (a raylib 2.5D
side-scrolling beat-em-up) in Lean 4 and settles the frozen claims about
it.  Modelling conventions:

* C++ `float` values are modelled as exact rationals (`ℚ`); C++ `int`
  as `ℤ`.  All constants of the source are exactly representable.
* `std::round` rounds half away from zero; every argument it receives in
  the source (`baseDamage * comboMul`, both nonnegative) is nonnegative,
  where it agrees with Mathlib's `round` (half up), which we use.
* C++ `/` on nonnegative `int`s agrees with `Int` division, which we use.
* The square-root normalisation of movement/AI direction vectors is not
  expressible in `ℚ`; the direction vector is therefore a parameter of
  the movement steps.  No claim proved here depends on its magnitude.
* Rendering, audio and texture handles are out of scope (per the spec);
  sprite pointers are dropped and the `sprite != nullptr` guards on
  animation updates are modelled as always true.
-/

namespace Beatemup

/-- Game phase enum (`enum class GameState`, main.cpp line 31). -/
inductive GameState where
  | MENU
  | PLAYING
  | SHOP
  | VICTORY
  | GAMEOVER
  deriving DecidableEq

/-- Enemy variant enum (`enum class EnemyType`, main.cpp line 32). -/
inductive EnemyType where
  | GRUNT
  | FAST
  | TANK
  | BOSS
  deriving DecidableEq

/-- Player class enum (`enum class PlayerClass`, main.cpp line 33). -/
inductive PlayerClass where
  | KNIGHT
  | ROGUE
  | MAGE
  deriving DecidableEq

/-- Raylib `Vector2` with exact rational coordinates. -/
structure Vec2 where
  x : ℚ := 0
  y : ℚ := 0
  deriving DecidableEq

/-- Raylib `Rectangle` (top-left corner plus extent). -/
structure Rect where
  x : ℚ := 0
  y : ℚ := 0
  width : ℚ := 0
  height : ℚ := 0
  deriving DecidableEq

/-- `MakeRect` (main.cpp lines 162-164): feet-anchored bounding box. -/
def MakeRect (pos size : Vec2) : Rect :=
  { x := pos.x - size.x * (1/2), y := pos.y - size.y,
    width := size.x, height := size.y }

/-- Raylib `CheckCollisionRecs`: strict axis-aligned rectangle overlap. -/
def CheckCollisionRecs (a b : Rect) : Prop :=
  a.x < b.x + b.width ∧ a.x + a.width > b.x ∧
  a.y < b.y + b.height ∧ a.y + a.height > b.y

instance (a b : Rect) : Decidable (CheckCollisionRecs a b) := by
  unfold CheckCollisionRecs; infer_instance

/-- `RectOverlap` (main.cpp lines 166-168) forwards to raylib. -/
def RectOverlap (a b : Rect) : Prop := CheckCollisionRecs a b

instance (a b : Rect) : Decidable (RectOverlap a b) := by
  unfold RectOverlap; infer_instance

/-- Raylib `CheckCollisionCircleRec`: circle vs rectangle overlap. -/
def CheckCollisionCircleRec (center : Vec2) (radius : ℚ) (rec : Rect) : Prop :=
  let dx := |center.x - (rec.x + rec.width / 2)|
  let dy := |center.y - (rec.y + rec.height / 2)|
  if dx > rec.width / 2 + radius then False
  else if dy > rec.height / 2 + radius then False
  else if dx ≤ rec.width / 2 then True
  else if dy ≤ rec.height / 2 then True
  else (dx - rec.width / 2) ^ 2 + (dy - rec.height / 2) ^ 2 ≤ radius ^ 2

instance (c : Vec2) (r : ℚ) (rec : Rect) :
    Decidable (CheckCollisionCircleRec c r rec) := by
  unfold CheckCollisionCircleRec; dsimp only; infer_instance

/-! ## World constants (main.cpp lines 147-156) -/

def GROUND_TOP : ℚ := 350
def GROUND_BOTTOM : ℚ := 430
def LEVEL_LENGTH : ℚ := 3000
def ENEMY_SPAWN_INTERVAL : ℚ := 3
def COMBO_RESET_TIME : ℚ := 1
def PLAYER_SPRITE_COLS : ℤ := 4
def ENEMY_SPRITE_COLS : ℤ := 4

/-! ## Combat math -/

/-- `GetComboMultiplier` (main.cpp lines 173-192): combo-step damage
multipliers per class, with the step clamped into `[1, 3]`. -/
def GetComboMultiplier (pc : PlayerClass) (step : ℤ) : ℚ :=
  let s1 := if step < 1 then 1 else step
  let s := if s1 > 3 then 3 else s1
  match pc with
  | PlayerClass.KNIGHT => if s = 1 then 1 else if s = 2 then 13/10 else 2
  | PlayerClass.ROGUE => if s = 1 then 7/10 else if s = 2 then 9/10 else 11/10
  | PlayerClass.MAGE => if s = 1 then 8/10 else if s = 2 then 1 else 12/10

/-- Damage of one melee hit: `(int)std::round(baseDamage * comboMul)`
(main.cpp lines 821-822; also the mage projectile damage at spawn,
lines 642-643). -/
def meleeDamage (pc : PlayerClass) (step : ℤ) (baseDamage : ℤ) : ℤ :=
  round ((baseDamage : ℚ) * GetComboMultiplier pc step)

/-- Per-type contact damage to the player (main.cpp lines 766-769). -/
def enemyTypeDamage : EnemyType → ℤ
  | EnemyType.GRUNT => 6
  | EnemyType.FAST => 8
  | EnemyType.TANK => 13
  | EnemyType.BOSS => 20

/-- Number of currency pickups emitted on an enemy kill
(main.cpp lines 848-850 and 885-887). -/
def killRewardCount (t : EnemyType) : ℕ :=
  if t = EnemyType.TANK then 3 else if t = EnemyType.BOSS then 10 else 1

/-! ## Entity models (main.cpp lines 35-141) -/

/-- `struct Coin` (main.cpp lines 35-38). -/
structure Coin where
  pos : Vec2 := {}
  collected : Bool := false
  deriving DecidableEq

/-- `struct Enemy` (main.cpp lines 40-67).  The borrowed sprite pointer
is dropped (rendering is out of scope). -/
structure Enemy where
  pos : Vec2 := {}
  size : Vec2 := {}
  maxHP : ℤ := 0
  hp : ℤ := 0
  speed : ℚ := 0
  type : EnemyType := EnemyType.GRUNT
  alive : Bool := true
  attackCooldown : ℚ := 0
  windingUp : Bool := false
  windupTimer : ℚ := 0
  attackingAnim : Bool := false
  attackAnimTimer : ℚ := 0
  lastHitAttackId : ℤ := -1
  lastProjectileHitId : ℤ := -1
  animFrame : ℤ := 0
  animRow : ℤ := 0
  animMaxFrames : ℤ := ENEMY_SPRITE_COLS
  animTimer : ℚ := 0
  animFrameTime : ℚ := 15/100
  deriving DecidableEq

/-- `struct Projectile` (main.cpp lines 69-77). -/
structure Projectile where
  pos : Vec2 := {}
  vel : Vec2 := {}
  radius : ℚ := 0
  life : ℚ := 0
  active : Bool := false
  damage : ℤ := 0
  id : ℤ := 0
  deriving DecidableEq

/-- `struct Player` (main.cpp lines 79-132).  The name string and the
borrowed sprite pointer are dropped (rendering is out of scope). -/
structure Player where
  pos : Vec2 := {}
  size : Vec2 := {}
  maxHP : ℤ := 0
  hp : ℤ := 0
  speed : ℚ := 0
  baseDamage : ℤ := 0
  facingRight : Bool := true
  attacking : Bool := false
  attackTimer : ℚ := 0
  attackDuration : ℚ := 15/100
  comboTimer : ℚ := 0
  comboStep : ℤ := 0
  attackHitbox : Rect := {}
  coins : ℤ := 0
  damageLevel : ℤ := 0
  healthLevel : ℤ := 0
  speedLevel : ℤ := 0
  blocking : Bool := false
  blockTimer : ℚ := 0
  blockCooldown : ℚ := 0
  blockCooldownTimer : ℚ := 0
  dodging : Bool := false
  dodgeTimer : ℚ := 0
  dodgeDuration : ℚ := 0
  dodgeCooldown : ℚ := 0
  dodgeCooldownTimer : ℚ := 0
  dodgeDir : ℚ := 0
  blinkCooldown : ℚ := 0
  blinkCooldownTimer : ℚ := 0
  invincible : Bool := false
  invincibleTimer : ℚ := 0
  currentAttackId : ℤ := -1
  animFrame : ℤ := 0
  animRow : ℤ := 0
  animMaxFrames : ℤ := PLAYER_SPRITE_COLS
  animTimer : ℚ := 0
  animFrameTime : ℚ := 12/100
  deriving DecidableEq

/-- `struct CharacterClass` (main.cpp lines 134-141), without the name
string and debug colour. -/
structure CharacterClass where
  maxHP : ℤ
  speed : ℚ
  baseDamage : ℤ
  type : PlayerClass
  deriving DecidableEq

/-- The three selectable classes (main.cpp lines 311-315). -/
def knightClass : CharacterClass := ⟨170, 180, 20, PlayerClass.KNIGHT⟩

def rogueClass : CharacterClass := ⟨110, 270, 14, PlayerClass.ROGUE⟩

def mageClass : CharacterClass := ⟨90, 190, 10, PlayerClass.MAGE⟩

/-- `MakeEnemy` (main.cpp lines 198-244): fresh enemy of the given type
at `(x, laneY)` with per-type size/HP/speed constants. -/
def MakeEnemy (type : EnemyType) (x laneY : ℚ) : Enemy :=
  let base : Enemy :=
    { pos := ⟨x, laneY⟩, type := type, alive := true,
      windingUp := false, windupTimer := 0,
      attackingAnim := false, attackAnimTimer := 0,
      lastHitAttackId := -1, lastProjectileHitId := -1,
      animFrame := 0, animRow := 0, animMaxFrames := ENEMY_SPRITE_COLS,
      animTimer := 0, animFrameTime := 15/100,
      size := {}, maxHP := 0, hp := 0, speed := 0 }
  match type with
  | EnemyType.GRUNT => { base with size := ⟨40, 70⟩, maxHP := 90, hp := 90, speed := 80 }
  | EnemyType.FAST => { base with size := ⟨32, 60⟩, maxHP := 80, hp := 80, speed := 135 }
  | EnemyType.TANK => { base with size := ⟨60, 90⟩, maxHP := 150, hp := 150, speed := 55 }
  | EnemyType.BOSS => { base with size := ⟨100, 140⟩, maxHP := 450, hp := 450, speed := 70 }

/-- `ResetGame`'s player re-initialisation (main.cpp lines 346-405):
every gameplay field is reset from the selected class; only the attack
hitbox (not reset by the source) survives from the previous session. -/
def resetPlayer (prev : Player) (cc : CharacterClass) : Player :=
  let p : Player :=
    { prev with
      size := ⟨40, 75⟩,
      pos := ⟨100, (GROUND_TOP + GROUND_BOTTOM) * (1/2)⟩,
      maxHP := cc.maxHP, hp := cc.maxHP,
      speed := cc.speed, baseDamage := cc.baseDamage,
      facingRight := true,
      attacking := false, attackTimer := 0, attackDuration := 15/100,
      comboTimer := 0, comboStep := 0, coins := 0,
      damageLevel := 0, healthLevel := 0, speedLevel := 0,
      currentAttackId := -1,
      blocking := false, blockTimer := 0,
      blockCooldown := 0, blockCooldownTimer := 0,
      dodging := false, dodgeTimer := 0, dodgeDuration := 0,
      dodgeCooldown := 0, dodgeCooldownTimer := 0, dodgeDir := 0,
      blinkCooldown := 0, blinkCooldownTimer := 0,
      invincible := false, invincibleTimer := 0,
      animFrame := 0, animRow := 0, animMaxFrames := PLAYER_SPRITE_COLS,
      animTimer := 0, animFrameTime := 12/100 }
  match cc.type with
  | PlayerClass.KNIGHT => { p with blockCooldown := 1 }
  | PlayerClass.ROGUE => { p with dodgeDuration := 25/100, dodgeCooldown := 9/10 }
  | PlayerClass.MAGE => { p with blinkCooldown := 12/10 }

/-! ## Frame timing (main.cpp lines 426-432) -/

/-- The three per-frame time quantities computed at the top of the game
loop (main.cpp lines 426-432): `realDt` is the raw frame time clamped to
`0.05`, `hitStopTimer` is the global hit-stop timer after its countdown
by `realDt` (clamped at `0`), and `gameDt` is the simulation delta: `0`
while the decremented hit-stop timer is still positive, else `realDt`. -/
structure FrameDeltas where
  realDt : ℚ
  hitStopTimer : ℚ
  gameDt : ℚ
  deriving DecidableEq

/-- Main-loop timing step (main.cpp lines 426-432). -/
def frameDeltas (hitStop rawDt : ℚ) : FrameDeltas :=
  let realDt := if rawDt > 5/100 then 5/100 else rawDt
  let g1 := hitStop - realDt
  let g := if g1 < 0 then 0 else g1
  { realDt := realDt, hitStopTimer := g,
    gameDt := if g > 0 then 0 else realDt }

/-! ## Player timers (main.cpp lines 491-512 and 665-678) -/

/-- One ability-cooldown countdown: decrement while positive, then clamp
at zero (the pattern of main.cpp lines 492-505). -/
def coolTimerStep (t dt : ℚ) : ℚ :=
  let t1 := if t > 0 then t - dt else t
  if t1 < 0 then 0 else t1

/-- The per-frame ability timer block (main.cpp lines 491-512): block,
dodge and blink cooldowns count down by the given delta, and the
invincibility timer counts down and clears the flag on expiry. -/
def playingTimersStep (p : Player) (dt : ℚ) : Player :=
  let p1 := { p with blockCooldownTimer := coolTimerStep p.blockCooldownTimer dt }
  let p2 := { p1 with dodgeCooldownTimer := coolTimerStep p1.dodgeCooldownTimer dt }
  let p3 := { p2 with blinkCooldownTimer := coolTimerStep p2.blinkCooldownTimer dt }
  if p3.invincibleTimer > 0 then
    let t := p3.invincibleTimer - dt
    { p3 with invincibleTimer := t,
              invincible := if t ≤ 0 then false else p3.invincible }
  else p3

/-- Player animation update (main.cpp lines 665-678): choose the row
from attack/movement state, accumulate the frame timer by the given
delta, and advance the frame counter when it reaches the frame time. -/
def playerAnimStep (p : Player) (isMoving : Bool) (dt : ℚ) : Player :=
  let row : ℤ := if p.attacking then 2 else if isMoving then 1 else 0
  let t := p.animTimer + dt
  if t ≥ p.animFrameTime then
    { p with animRow := row, animTimer := 0,
             animFrame := (p.animFrame + 1) % p.animMaxFrames }
  else { p with animRow := row, animTimer := t }

/-! ## Movement and bounds (main.cpp lines 452-479, 549-562, 726-743) -/

/-- Player movement and clamping (main.cpp lines 459-479).  `move` is
the normalised input direction (normalisation contains a square root and
is abstracted into this parameter; its magnitude is irrelevant to the
clamping proved below).  During an active dodge the move vector is
overridden by the dodge direction at 3.5x speed. -/
def playerMoveStep (p : Player) (move : Vec2) (gameDt : ℚ) : Player :=
  let mv := if p.dodging then (⟨p.dodgeDir, 0⟩ : Vec2) else move
  let moveSpeed := if p.dodging then p.speed * (35/10) else p.speed
  let x := p.pos.x + mv.x * moveSpeed * gameDt
  let y := p.pos.y + mv.y * p.speed * gameDt
  let x1 := if x < 0 then 0 else x
  let x2 := if x1 > LEVEL_LENGTH then LEVEL_LENGTH else x1
  let y1 := if y < GROUND_TOP then GROUND_TOP else y
  let y2 := if y1 > GROUND_BOTTOM then GROUND_BOTTOM else y1
  { p with pos := ⟨x2, y2⟩ }

/-- Mage blink (main.cpp lines 551-561), as executed when the cooldown
has elapsed and the ability key is pressed: teleport 150 units in the
facing direction, clamp x to the level, start the cooldown, and grant a
0.15 s invincibility window. -/
def blinkStep (p : Player) : Player :=
  let dir : ℚ := if p.facingRight then 1 else -1
  let x := p.pos.x + dir * 150
  let x1 := if x < 0 then 0 else x
  let x2 := if x1 > LEVEL_LENGTH then LEVEL_LENGTH else x1
  { p with pos := ⟨x2, p.pos.y⟩,
           blinkCooldownTimer := p.blinkCooldown,
           invincible := true, invincibleTimer := 15/100 }

/-- Enemy approach movement (main.cpp lines 726-743), as executed when
the enemy is neither winding up nor in its attack animation.  `dir` is
the unit vector toward the player (zero inside the 5-unit dead zone);
its square-root normalisation is abstracted into the parameter.  Only
the y coordinate is clamped by the source. -/
def enemyMoveStep (e : Enemy) (dir : Vec2) (gameDt : ℚ) : Enemy :=
  let x := e.pos.x + dir.x * e.speed * gameDt
  let y := e.pos.y + dir.y * e.speed * (6/10) * gameDt
  let y1 := if y < GROUND_TOP then GROUND_TOP else y
  let y2 := if y1 > GROUND_BOTTOM then GROUND_BOTTOM else y1
  { e with pos := ⟨x, y2⟩ }

/-! ## Combat resolution (main.cpp lines 718-904) -/

/-- Result of resolving one damage source against one enemy: the updated
enemy, the global hit-stop timer, the game phase, and how many currency
pickups were spawned by this resolution. -/
structure HitResult where
  enemy : Enemy
  hitStop : ℚ
  state : GameState
  coinsSpawned : ℕ
  deriving DecidableEq

/-- Melee resolution of the player's current swing against one enemy
(main.cpp lines 814-864), including the `!e.alive` skip of the enclosing
loop (line 722).  Damage lands only if the enemy's stored last-hit
attack id differs from the current attack id and the stored hitbox
overlaps the enemy; on a hit the id is stamped, damage and knockback are
applied, hit-stop is raised, and a kill spawns currency and a boss kill
sets the phase to VICTORY. -/
def meleeHitEnemy (pc : PlayerClass) (attacking : Bool) (currentAttackId : ℤ)
    (comboStep : ℤ) (baseDamage : ℤ) (hitbox : Rect) (playerX : ℚ)
    (hitStop : ℚ) (st : GameState) (e : Enemy) : HitResult :=
  if !e.alive then ⟨e, hitStop, st, 0⟩
  else if (pc = PlayerClass.KNIGHT ∨ pc = PlayerClass.ROGUE) ∧
      attacking = true ∧ 0 ≤ currentAttackId then
    if e.lastHitAttackId ≠ currentAttackId ∧
        RectOverlap hitbox (MakeRect e.pos e.size) then
      let dmg := meleeDamage pc comboStep baseDamage
      let hp1 := e.hp - dmg
      let hs1 := max hitStop
        (if pc = PlayerClass.KNIGHT ∧ comboStep = 3 then 6/100 else 3/100)
      let kdDir : ℚ := if e.pos.x < playerX then -1 else 1
      let knockDist : ℚ :=
        if pc = PlayerClass.KNIGHT then (if comboStep = 3 then 90 else 35) else 22
      let e1 := { e with lastHitAttackId := currentAttackId, hp := hp1,
                         pos := ⟨e.pos.x + kdDir * knockDist, e.pos.y⟩ }
      if hp1 ≤ 0 then
        ⟨{ e1 with alive := false }, hs1,
          (if e.type = EnemyType.BOSS then GameState.VICTORY else st),
          killRewardCount e.type⟩
      else ⟨e1, hs1, st, 0⟩
    else ⟨e, hitStop, st, 0⟩
  else ⟨e, hitStop, st, 0⟩

/-- Mage projectile spawn (main.cpp lines 637-654): damage is
precomputed from the combo multiplier at spawn time, and the id is the
incremented global projectile counter. -/
def spawnProjectile (p : Player) (gProjectileCounter : ℤ) : Projectile :=
  let dir : ℚ := if p.facingRight then 1 else -1
  { active := true, life := 12/10,
    radius := if p.comboStep = 1 then 18 else if p.comboStep = 2 then 22 else 26,
    vel := ⟨dir * (if p.comboStep = 1 then 420 else if p.comboStep = 2 then 460 else 520), 0⟩,
    pos := ⟨p.pos.x + dir * 30, p.pos.y - 25⟩,
    damage := meleeDamage PlayerClass.MAGE p.comboStep p.baseDamage,
    id := gProjectileCounter + 1 }

/-- Projectile resolution against one enemy (main.cpp lines 867-904),
including the mage-only guard (line 868) and the `!p.active` / `!e.alive`
skips (lines 870-872).  A hit applies the precomputed damage and stamps
the enemy's last projectile id; there is no knockback and no hit-stop,
and the projectile is not consumed (it pierces). -/
def projectileHitEnemy (pc : PlayerClass) (p : Projectile)
    (hitStop : ℚ) (st : GameState) (e : Enemy) : HitResult :=
  if pc ≠ PlayerClass.MAGE then ⟨e, hitStop, st, 0⟩
  else if !p.active then ⟨e, hitStop, st, 0⟩
  else if !e.alive then ⟨e, hitStop, st, 0⟩
  else if CheckCollisionCircleRec p.pos p.radius (MakeRect e.pos e.size) then
    if e.lastProjectileHitId ≠ p.id then
      let hp1 := e.hp - p.damage
      let e1 := { e with lastProjectileHitId := p.id, hp := hp1 }
      if hp1 ≤ 0 then
        ⟨{ e1 with alive := false }, hitStop,
          (if e.type = EnemyType.BOSS then GameState.VICTORY else st),
          killRewardCount e.type⟩
      else ⟨e1, hitStop, st, 0⟩
    else ⟨e, hitStop, st, 0⟩
  else ⟨e, hitStop, st, 0⟩

/-- The inner loop of the projectile resolution phase: one projectile
tested against every enemy in order (main.cpp lines 871-902), threading
the hit-stop timer and phase and accumulating spawned currency. -/
def projectileVsEnemies (pc : PlayerClass) (p : Projectile) (hitStop : ℚ)
    (st : GameState) : List Enemy → List Enemy × ℚ × GameState × ℕ
  | [] => ([], hitStop, st, 0)
  | e :: es =>
      let r := projectileHitEnemy pc p hitStop st e
      let rest := projectileVsEnemies pc p r.hitStop r.state es
      (r.enemy :: rest.1, rest.2.1, rest.2.2.1, r.coinsSpawned + rest.2.2.2)

/-- Enemy windup expiry (main.cpp lines 762-792): re-test the
player/enemy overlap; on contact, take the per-type damage, zero it
entirely under invincibility, reduce it to a third (integer division)
under an active Knight block, and apply any positive remainder to the
player's HP clamped at zero, raising hit-stop to at least 0.05.  In
every case the enemy leaves windup, enters its 0.22 s attack animation
and resets its cooldown to 1.1 s. -/
def windupExpiryStep (pc : PlayerClass) (p : Player) (hitStop : ℚ)
    (e : Enemy) : Player × Enemy × ℚ :=
  let e1 := { e with windingUp := false, attackingAnim := true,
                     attackAnimTimer := 22/100, attackCooldown := 11/10 }
  if RectOverlap (MakeRect e.pos e.size) (MakeRect p.pos p.size) then
    let dmg := enemyTypeDamage e.type
    let finalDmg :=
      if p.invincible then 0
      else if p.blocking = true ∧ pc = PlayerClass.KNIGHT then dmg / 3
      else dmg
    if finalDmg > 0 then
      let hp1 := p.hp - finalDmg
      ({ p with hp := if hp1 < 0 then 0 else hp1 }, e1, max hitStop (5/100))
    else (p, e1, hitStop)
  else (p, e1, hitStop)

/-! ## Global attack-id counter (main.cpp lines 154-156, 414-417, 583-586) -/

/-- The two session-level operations that touch the global melee attack
counter `gAttackCounter`: an attack-input edge (main.cpp lines 585-586)
increments it and issues the new value as the attack-instance id, and
`ResetGame` (line 416) sets it back to `0` and issues nothing. -/
inductive SessionEvent where
  | attackEdge
  | resetGame
  deriving DecidableEq

/-- Effect of one session event on `gAttackCounter`, paired with the
list of attack-instance ids it issues. -/
def attackIdStep : ℤ → SessionEvent → ℤ × List ℤ
  | c, SessionEvent.attackEdge => (c + 1, [c + 1])
  | _, SessionEvent.resetGame => (0, [])

/-- All attack-instance ids issued over a sequence of session events,
starting from counter value `c` (the program starts at `0`). -/
def runAttackIds : ℤ → List SessionEvent → ℤ × List ℤ
  | c, [] => (c, [])
  | c, ev :: evs =>
      let r := attackIdStep c ev
      let rest := runAttackIds r.1 evs
      (rest.1, r.2 ++ rest.2)

/-! ## Shop (main.cpp lines 250-284 and 925-945) -/

/-- The base costs of the three upgrade tracks, in order damage,
max-HP, speed (`shopOptions`, main.cpp lines 255-259; labels dropped). -/
def shopBaseCosts : List ℤ := [5, 5, 5]

/-- `GetUpgradeCost` (main.cpp lines 261-268): base cost of the track
times `(1 + current level)`.  The C++ array read is out of bounds for
an index outside `{0,1,2}` (never exercised: the shop selection is kept
in range); we default it to `0` there. -/
def GetUpgradeCost (p : Player) (index : ℤ) : ℤ :=
  let level := if index = 0 then p.damageLevel
    else if index = 1 then p.healthLevel
    else if index = 2 then p.speedLevel else 0
  (shopBaseCosts.getD index.toNat 0) * (1 + level)

/-- `ApplyUpgrade` (main.cpp lines 270-284): damage +3, or max-HP +15
with a full heal to the new maximum, or speed +20, bumping the track's
level; any other index is a no-op. -/
def ApplyUpgrade (p : Player) (index : ℤ) : Player :=
  if index = 0 then
    { p with damageLevel := p.damageLevel + 1, baseDamage := p.baseDamage + 3 }
  else if index = 1 then
    { p with healthLevel := p.healthLevel + 1, maxHP := p.maxHP + 15,
             hp := p.maxHP + 15 }
  else if index = 2 then
    { p with speedLevel := p.speedLevel + 1, speed := p.speed + 20 }
  else p

/-- The purchase attempt on a confirm press in the shop (main.cpp lines
935-941): succeeds only when the currency covers the cost, deducting the
cost before applying the upgrade. -/
def shopPurchase (p : Player) (index : ℤ) : Player :=
  let cost := GetUpgradeCost p index
  if p.coins ≥ cost then ApplyUpgrade { p with coins := p.coins - cost } index
  else p

/-- Shop selection navigation (main.cpp lines 926-933): down is applied
before up, each wrapping inside `[0, 2]`. -/
def shopSelStep (downPressed upPressed : Bool) (sel : ℤ) : ℤ :=
  let s1 := if downPressed then (if sel + 1 > 2 then 0 else sel + 1) else sel
  if upPressed then (if s1 - 1 < 0 then 2 else s1 - 1) else s1

/-! ## Whole-frame state for the SHOP phase (main.cpp lines 425-432, 925-945) -/

/-- The discrete input edges the SHOP branch reads in one frame. -/
structure Input where
  downPressed : Bool := false
  upPressed : Bool := false
  enterPressed : Bool := false
  tabPressed : Bool := false
  escPressed : Bool := false
  deriving DecidableEq

/-- The mutable state owned by `main`'s game loop that the simulation
touches (main.cpp lines 319-334 plus the globals of lines 154-156). -/
structure World where
  player : Player := {}
  enemies : List Enemy := []
  coins : List Coin := []
  projectiles : List Projectile := []
  bossSpawned : Bool := false
  bossDefeated : Bool := false
  enemySpawnTimer : ℚ := 0
  shopSelection : ℤ := 0
  state : GameState := GameState.MENU
  hitStopTimer : ℚ := 0
  attackCounter : ℤ := 0
  projectileCounter : ℤ := 0
  deriving DecidableEq

/-- The SHOP-phase update branch (main.cpp lines 925-945): navigate the
selection, attempt a purchase on confirm, and leave to PLAYING on the
shop or cancel key. -/
def shopFrameStep (inp : Input) (w : World) : World :=
  let sel := shopSelStep inp.downPressed inp.upPressed w.shopSelection
  let player := if inp.enterPressed then shopPurchase w.player sel else w.player
  let st := if inp.tabPressed ∨ inp.escPressed then GameState.PLAYING else w.state
  { w with shopSelection := sel, player := player, state := st }

/-- One whole frame spent in the SHOP phase: the global hit-stop decay
of main.cpp lines 429-432 (which runs in every phase) followed by the
SHOP branch. -/
def shopFrame (rawDt : ℚ) (inp : Input) (w : World) : World :=
  let d := frameDeltas w.hitStopTimer rawDt
  let w1 := { w with hitStopTimer := d.hitStopTimer }
  if w1.state = GameState.SHOP then shopFrameStep inp w1 else w1

/-! ## Concrete fixtures used by witnesses and counterexamples -/

/-- The zero-initialised player of `Player player{}` (main.cpp line 319). -/
def playerInitial : Player := {}

/-- The player as handed to a fresh Knight session by `ResetGame`. -/
def knightPlayer : Player := resetPlayer playerInitial knightClass

/-- The Knight step-3 attack hitbox for a player standing at `(100, 390)`
facing left, per main.cpp lines 592-636: range 80, width 85 + 20,
height 80, centred at `x + dir * range * 0.6`. -/
def knightFinisherHitboxLeft : Rect := MakeRect ⟨100 - 48, 390⟩ ⟨105, 80⟩

/-- The same Knight step-3 hitbox for a player at `(100, 390)` facing
right. -/
def knightFinisherHitboxRight : Rect := MakeRect ⟨100 + 48, 390⟩ ⟨105, 80⟩

/-! ## Concrete fixtures for witnesses and counterexamples -/

/-- The condition under which the melee resolution of main.cpp lines
814-818 applies damage: living enemy, melee class, active swing with a
valid id, enemy not yet stamped with this id, and hitbox overlap. -/
def meleeGate (pc : PlayerClass) (attacking : Bool) (aid : ℤ) (hb : Rect)
    (e : Enemy) : Prop :=
  e.alive = true ∧ (pc = PlayerClass.KNIGHT ∨ pc = PlayerClass.ROGUE) ∧
  attacking = true ∧ 0 ≤ aid ∧ e.lastHitAttackId ≠ aid ∧
  RectOverlap hb (MakeRect e.pos e.size)

instance (pc : PlayerClass) (attacking : Bool) (aid : ℤ) (hb : Rect)
    (e : Enemy) : Decidable (meleeGate pc attacking aid hb e) := by
  unfold meleeGate; infer_instance

/-- The condition under which the projectile resolution of main.cpp
lines 868-875 applies damage: mage class, active projectile, living
enemy, circle/rectangle overlap, and the enemy not yet stamped with
this projectile's id. -/
def projectileGate (pc : PlayerClass) (p : Projectile) (e : Enemy) : Prop :=
  pc = PlayerClass.MAGE ∧ p.active = true ∧ e.alive = true ∧
  CheckCollisionCircleRec p.pos p.radius (MakeRect e.pos e.size) ∧
  e.lastProjectileHitId ≠ p.id

instance (pc : PlayerClass) (p : Projectile) (e : Enemy) :
    Decidable (projectileGate pc p e) := by
  unfold projectileGate; infer_instance

/-- A fresh Grunt standing at `(130, 390)`, in reach of the Knight
finisher hitbox of a player at `(100, 390)` facing right. -/
def gruntTarget : Enemy := MakeEnemy EnemyType.GRUNT 130 390

/-- A concrete live mage projectile overlapping both targets below. -/
def mageBolt : Projectile :=
  { active := true, life := 1, radius := 20, vel := ⟨420, 0⟩,
    pos := ⟨130, 365⟩, damage := 12, id := 1 }

def fastTarget : Enemy := MakeEnemy EnemyType.FAST 150 390

/-- A Grunt worn down to 10 HP. -/
def woundedGrunt : Enemy := { MakeEnemy EnemyType.GRUNT 130 390 with hp := 10 }

/-- A Grunt already flagged dead. -/
def deadGrunt : Enemy := { MakeEnemy EnemyType.GRUNT 130 390 with alive := false }

/-- A boss worn down to 30 HP. -/
def woundedBoss : Enemy := { MakeEnemy EnemyType.BOSS 130 390 with hp := 30 }

/-- A Tank overlapping a player standing at `(100, 390)`. -/
def tankAttacker : Enemy := MakeEnemy EnemyType.TANK 110 390

/-- A concrete mid-session world paused in the SHOP phase. -/
def shopWorld : World :=
  { player := { knightPlayer with coins := 7 }, enemies := [gruntTarget],
    coins := [], projectiles := [mageBolt],
    bossSpawned := false, bossDefeated := false, enemySpawnTimer := 1,
    shopSelection := 0, state := GameState.SHOP, hitStopTimer := 0,
    attackCounter := 3, projectileCounter := 1 }

/-! ## Helper lemmas: one hit per instance id -/

/-- Iterating an idempotent step more than once is the same as applying
it once. -/
theorem iterate_eq_of_idem {α : Type} (f : α → α) (e : α)
    (h : f (f e) = f e) (n : ℕ) : f^[n + 1] e = f e := by
  rw [Function.iterate_succ_apply]
  exact Function.iterate_fixed h n

/-- When the gate fails the melee resolution is a no-op. -/
theorem meleeHitEnemy_gate_false (pc : PlayerClass) (attacking : Bool)
    (aid cs bd : ℤ) (hb : Rect) (px hs : ℚ) (st : GameState) (e : Enemy)
    (hg : ¬ meleeGate pc attacking aid hb e) :
    meleeHitEnemy pc attacking aid cs bd hb px hs st e = ⟨e, hs, st, 0⟩ := by
  unfold meleeHitEnemy
  split_ifs with h1 h2 h3 <;>
    first
    | rfl
    | exact absurd ⟨by simpa using h1, h2.1, h2.2.1, h2.2.2, h3.1, h3.2⟩ hg

/-- When the gate holds, the melee resolution subtracts exactly one
application of the combo-multiplier formula and stamps the enemy with
the current attack id. -/
theorem meleeHitEnemy_gate_true (pc : PlayerClass) (attacking : Bool)
    (aid cs bd : ℤ) (hb : Rect) (px hs : ℚ) (st : GameState) (e : Enemy)
    (hg : meleeGate pc attacking aid hb e) :
    (meleeHitEnemy pc attacking aid cs bd hb px hs st e).enemy.hp
        = e.hp - meleeDamage pc cs bd ∧
    (meleeHitEnemy pc attacking aid cs bd hb px hs st e).enemy.lastHitAttackId
        = aid := by
  obtain ⟨ha, hc, hatt, hid, hlast, hov⟩ := hg
  unfold meleeHitEnemy
  rw [if_neg (by simp [ha]), if_pos ⟨hc, hatt, hid⟩, if_pos ⟨hlast, hov⟩]
  dsimp only
  split_ifs <;> simp

/-- Resolving the same attack instance twice (with any hit-stop, phase
and player-x parameters) changes the enemy no further than resolving it
once: the stamped id gates the second application. -/
theorem meleeHitEnemy_enemy_idem (pc : PlayerClass) (attacking : Bool)
    (aid cs bd : ℤ) (hb : Rect) (px px2 hs hs2 : ℚ) (st st2 : GameState)
    (e : Enemy) :
    (meleeHitEnemy pc attacking aid cs bd hb px2 hs2 st2
        ((meleeHitEnemy pc attacking aid cs bd hb px hs st e).enemy)).enemy
      = (meleeHitEnemy pc attacking aid cs bd hb px hs st e).enemy := by
  by_cases hg : meleeGate pc attacking aid hb e
  · have hstamp := (meleeHitEnemy_gate_true pc attacking aid cs bd hb px hs st e hg).2
    have hng : ¬ meleeGate pc attacking aid hb
        ((meleeHitEnemy pc attacking aid cs bd hb px hs st e).enemy) := by
      intro hg2
      exact hg2.2.2.2.2.1 hstamp
    rw [meleeHitEnemy_gate_false pc attacking aid cs bd hb px2 hs2 st2 _ hng]
  · rw [meleeHitEnemy_gate_false pc attacking aid cs bd hb px hs st e hg]
    rw [meleeHitEnemy_gate_false pc attacking aid cs bd hb px2 hs2 st2 e hg]

/-- When the gate fails the projectile resolution is a no-op. -/
theorem projectileHitEnemy_gate_false (pc : PlayerClass) (p : Projectile)
    (hs : ℚ) (st : GameState) (e : Enemy)
    (hg : ¬ projectileGate pc p e) :
    projectileHitEnemy pc p hs st e = ⟨e, hs, st, 0⟩ := by
  unfold projectileHitEnemy
  split_ifs with h1 h2 h3 h4 h5 <;>
    first
    | rfl
    | exact absurd ⟨by simpa using h1, by simpa using h2, by simpa using h3,
        h4, h5⟩ hg

/-- When the gate holds, the projectile resolution subtracts exactly the
spawn-time damage and stamps the enemy with the projectile id. -/
theorem projectileHitEnemy_gate_true (pc : PlayerClass) (p : Projectile)
    (hs : ℚ) (st : GameState) (e : Enemy) (hg : projectileGate pc p e) :
    (projectileHitEnemy pc p hs st e).enemy.hp = e.hp - p.damage ∧
    (projectileHitEnemy pc p hs st e).enemy.lastProjectileHitId = p.id := by
  obtain ⟨hm, hact, ha, hov, hlast⟩ := hg
  unfold projectileHitEnemy
  rw [if_neg (by simp [hm]), if_neg (by simp [hact]), if_neg (by simp [ha]),
    if_pos hov, if_pos hlast]
  dsimp only
  split_ifs <;> simp

/-- Piercing the same enemy with the same projectile twice (with any
hit-stop and phase) changes the enemy no further than once. -/
theorem projectileHitEnemy_enemy_idem (pc : PlayerClass) (p : Projectile)
    (hs hs2 : ℚ) (st st2 : GameState) (e : Enemy) :
    (projectileHitEnemy pc p hs2 st2
        ((projectileHitEnemy pc p hs st e).enemy)).enemy
      = (projectileHitEnemy pc p hs st e).enemy := by
  by_cases hg : projectileGate pc p e
  · have hstamp := (projectileHitEnemy_gate_true pc p hs st e hg).2
    have hng : ¬ projectileGate pc p
        ((projectileHitEnemy pc p hs st e).enemy) := by
      intro hg2
      exact hg2.2.2.2.2 hstamp
    rw [projectileHitEnemy_gate_false pc p hs2 st2 _ hng]
  · rw [projectileHitEnemy_gate_false pc p hs st e hg]
    rw [projectileHitEnemy_gate_false pc p hs2 st2 e hg]

end Beatemup

namespace Beatemup

/-- Claim C1: per melee attack-instance id and enemy, HP drops by
exactly one application of round(baseDamage * combo multiplier), however
many frames the hitbox overlaps; damage applies only when the stored
last-hit id differs from the current id, and the id is stamped on
application. -/
theorem melee_damage_once_per_attack_id (pc : PlayerClass) (attacking : Bool)
    (aid cs bd : ℤ) (hb : Rect) (px hs : ℚ) (st : GameState) (e : Enemy) :
    (∀ n : ℕ,
      ((fun a => (meleeHitEnemy pc attacking aid cs bd hb px hs st a).enemy)^[n + 1] e)
        = (meleeHitEnemy pc attacking aid cs bd hb px hs st e).enemy) ∧
    (e.lastHitAttackId = aid →
      meleeHitEnemy pc attacking aid cs bd hb px hs st e = ⟨e, hs, st, 0⟩) ∧
    (meleeGate pc attacking aid hb e →
      (meleeHitEnemy pc attacking aid cs bd hb px hs st e).enemy.hp
          = e.hp - meleeDamage pc cs bd ∧
      (meleeHitEnemy pc attacking aid cs bd hb px hs st e).enemy.lastHitAttackId
          = aid) := by
  refine ⟨?_, ?_, meleeHitEnemy_gate_true pc attacking aid cs bd hb px hs st e⟩
  · intro n
    exact iterate_eq_of_idem _ e
      (meleeHitEnemy_enemy_idem pc attacking aid cs bd hb px px hs hs st st e) n
  · intro h
    exact meleeHitEnemy_gate_false pc attacking aid cs bd hb px hs st e
      (fun hg => hg.2.2.2.2.1 h)

/-- Witness for C1, at the spec's own scenario: a Knight with base
damage 20 at combo step 3 hits a fresh Grunt (HP 90); one resolution
takes it to 50, and a second frame of overlap changes nothing more. -/
theorem melee_damage_once_per_attack_id_witness :
    ((fun a => (meleeHitEnemy PlayerClass.KNIGHT true 1 3 20
        knightFinisherHitboxRight 100 0 GameState.PLAYING a).enemy)^[2] gruntTarget)
      = (meleeHitEnemy PlayerClass.KNIGHT true 1 3 20 knightFinisherHitboxRight
          100 0 GameState.PLAYING gruntTarget).enemy ∧
    (meleeHitEnemy PlayerClass.KNIGHT true 1 3 20 knightFinisherHitboxRight
        100 0 GameState.PLAYING gruntTarget).enemy.hp = 50 := by
  have h := melee_damage_once_per_attack_id PlayerClass.KNIGHT true 1 3 20
    knightFinisherHitboxRight 100 0 GameState.PLAYING gruntTarget
  have hg : meleeGate PlayerClass.KNIGHT true 1 knightFinisherHitboxRight
      gruntTarget := by
    refine ⟨rfl, Or.inl rfl, rfl, by norm_num,
      by norm_num [gruntTarget, MakeEnemy], ?_⟩
    norm_num [knightFinisherHitboxRight, gruntTarget, MakeEnemy, MakeRect,
      RectOverlap, CheckCollisionRecs]
  refine ⟨h.1 1, (h.2.2 hg).1.trans ?_⟩
  norm_num [gruntTarget, MakeEnemy, meleeDamage, GetComboMultiplier, round_eq]

end Beatemup

namespace Beatemup

/-- Claim C2: per projectile-instance id and enemy, damage applies at
most once across consecutive overlapping frames; the same projectile can
still damage two or more distinct enemies; a projectile hit applies no
knockback and no hit-stop, and its damage is precomputed at spawn. -/
theorem projectile_damage_once_per_enemy (pc : PlayerClass) (p : Projectile)
    (hs : ℚ) (st : GameState) (e e1 e2 : Enemy) :
    (∀ n : ℕ,
      ((fun a => (projectileHitEnemy pc p hs st a).enemy)^[n + 1] e)
        = (projectileHitEnemy pc p hs st e).enemy) ∧
    (e.lastProjectileHitId = p.id →
      projectileHitEnemy pc p hs st e = ⟨e, hs, st, 0⟩) ∧
    (projectileGate pc p e →
      (projectileHitEnemy pc p hs st e).enemy.hp = e.hp - p.damage ∧
      (projectileHitEnemy pc p hs st e).enemy.lastProjectileHitId = p.id) ∧
    ((projectileHitEnemy pc p hs st e).enemy.pos = e.pos ∧
     (projectileHitEnemy pc p hs st e).hitStop = hs) ∧
    (projectileGate pc p e1 → projectileGate pc p e2 →
      (projectileVsEnemies pc p hs st [e1, e2]).1.map Enemy.hp
        = [e1.hp - p.damage, e2.hp - p.damage]) ∧
    (∀ pl c, (spawnProjectile pl c).damage
        = meleeDamage PlayerClass.MAGE pl.comboStep pl.baseDamage) := by
  refine ⟨?_, ?_, projectileHitEnemy_gate_true pc p hs st e, ?_, ?_, fun pl c => rfl⟩
  · intro n
    exact iterate_eq_of_idem _ e
      (projectileHitEnemy_enemy_idem pc p hs hs st st e) n
  · intro h
    exact projectileHitEnemy_gate_false pc p hs st e (fun hg => hg.2.2.2.2 h)
  · unfold projectileHitEnemy
    dsimp only
    split_ifs <;> simp
  · intro hg1 hg2
    simp only [projectileVsEnemies, List.map]
    rw [(projectileHitEnemy_gate_true pc p hs st e1 hg1).1,
      (projectileHitEnemy_gate_true pc p _ _ e2 hg2).1]

/-- Witness for C2: one mage bolt pierces a Grunt and a Fast enemy in
the same frame, damaging both once each, moving neither, and raising no
hit-stop; a second resolution against the Grunt changes nothing. -/
theorem projectile_damage_once_per_enemy_witness :
    ((fun a => (projectileHitEnemy PlayerClass.MAGE mageBolt 0
        GameState.PLAYING a).enemy)^[2] gruntTarget)
      = (projectileHitEnemy PlayerClass.MAGE mageBolt 0
          GameState.PLAYING gruntTarget).enemy ∧
    (projectileVsEnemies PlayerClass.MAGE mageBolt 0 GameState.PLAYING
        [gruntTarget, fastTarget]).1.map Enemy.hp = [78, 68] ∧
    (projectileHitEnemy PlayerClass.MAGE mageBolt 0 GameState.PLAYING
        gruntTarget).enemy.pos = gruntTarget.pos ∧
    (projectileHitEnemy PlayerClass.MAGE mageBolt 0 GameState.PLAYING
        gruntTarget).hitStop = 0 := by
  have h := projectile_damage_once_per_enemy PlayerClass.MAGE mageBolt 0
    GameState.PLAYING gruntTarget gruntTarget fastTarget
  have hg1 : projectileGate PlayerClass.MAGE mageBolt gruntTarget := by
    refine ⟨rfl, rfl, rfl, ?_, by norm_num [gruntTarget, MakeEnemy, mageBolt]⟩
    norm_num [CheckCollisionCircleRec, mageBolt, gruntTarget, MakeEnemy, MakeRect]
  have hg2 : projectileGate PlayerClass.MAGE mageBolt fastTarget := by
    refine ⟨rfl, rfl, rfl, ?_, by norm_num [fastTarget, MakeEnemy, mageBolt]⟩
    norm_num [CheckCollisionCircleRec, mageBolt, fastTarget, MakeEnemy, MakeRect]
  refine ⟨h.1 1, (h.2.2.2.2.1 hg1 hg2).trans ?_, h.2.2.2.1⟩
  norm_num [gruntTarget, fastTarget, MakeEnemy, mageBolt]

end Beatemup

namespace Beatemup

theorem coolTimerStep_zero (t : ℚ) (ht : 0 ≤ t) : coolTimerStep t 0 = t := by
  unfold coolTimerStep
  dsimp only
  split_ifs <;> linarith

theorem playingTimersStep_zero (p : Player)
    (hbl : 0 ≤ p.blockCooldownTimer) (hdo : 0 ≤ p.dodgeCooldownTimer)
    (hbk : 0 ≤ p.blinkCooldownTimer) :
    playingTimersStep p 0 = p := by
  unfold playingTimersStep
  simp only [coolTimerStep_zero p.blockCooldownTimer hbl,
    coolTimerStep_zero p.dodgeCooldownTimer hdo,
    coolTimerStep_zero p.blinkCooldownTimer hbk]
  split_ifs with h h2
  · exfalso
    rw [sub_zero] at h2
    linarith
  · simp only [sub_zero]
  · rfl

/-- Claim C3 counterexample: with the hit-stop timer still positive
after its countdown (0.1 s at a 1/60 s frame), the simulation delta is
zero, and the ability-cooldown block leaves a 0.5 s block cooldown
unchanged, which differs from advancing it by the positive real delta as
the claim requires. -/
theorem hit_stop_freeze_cex :
    0 < (frameDeltas (1/10) (1/60)).hitStopTimer ∧
    (frameDeltas (1/10) (1/60)).gameDt = 0 ∧
    0 < (frameDeltas (1/10) (1/60)).realDt ∧
    (playingTimersStep { knightPlayer with blockCooldownTimer := 1/2 }
        (frameDeltas (1/10) (1/60)).gameDt).blockCooldownTimer = 1/2 ∧
    (1/2 : ℚ) - (frameDeltas (1/10) (1/60)).realDt ≠ 1/2 := by
  norm_num [frameDeltas, playingTimersStep, coolTimerStep, knightPlayer,
    resetPlayer, playerInitial, knightClass]

/-- Claim C3 amended: while the decremented hit-stop timer is positive
the simulation delta is zero and the clamped real delta still drives the
hit-stop countdown itself, but the animation and ability-cooldown timers
are driven by the simulation delta, so they do not advance during the
freeze. -/
theorem hit_stop_freeze (g rawDt : ℚ) (p : Player) (m : Bool)
    (hbl : 0 ≤ p.blockCooldownTimer) (hdo : 0 ≤ p.dodgeCooldownTimer)
    (hbk : 0 ≤ p.blinkCooldownTimer) (han : p.animTimer < p.animFrameTime) :
    (frameDeltas g rawDt).realDt = min rawDt (5/100) ∧
    (frameDeltas g rawDt).hitStopTimer
        = max 0 (g - (frameDeltas g rawDt).realDt) ∧
    (0 < (frameDeltas g rawDt).hitStopTimer →
      (frameDeltas g rawDt).gameDt = 0 ∧
      playingTimersStep p (frameDeltas g rawDt).gameDt = p ∧
      (playerAnimStep p m (frameDeltas g rawDt).gameDt).animTimer = p.animTimer ∧
      (playerAnimStep p m (frameDeltas g rawDt).gameDt).animFrame = p.animFrame) := by
  have hreal : (frameDeltas g rawDt).realDt = min rawDt (5/100) := by
    unfold frameDeltas
    dsimp only
    split_ifs with h
    · exact (min_eq_right (le_of_lt h)).symm
    · exact (min_eq_left (by linarith)).symm
  have hhs : (frameDeltas g rawDt).hitStopTimer
      = max 0 (g - (frameDeltas g rawDt).realDt) := by
    unfold frameDeltas
    dsimp only
    split_ifs with h h2
    · exact (max_eq_left (by linarith)).symm
    · exact (max_eq_right (by linarith)).symm
    · exact (max_eq_left (by linarith)).symm
    · exact (max_eq_right (by linarith)).symm
  refine ⟨hreal, hhs, ?_⟩
  intro hpos
  have hzero : (frameDeltas g rawDt).gameDt = 0 := by
    revert hpos
    unfold frameDeltas
    dsimp only
    intro hpos
    rw [if_pos hpos]
  refine ⟨hzero, ?_, ?_, ?_⟩
  · rw [hzero]
    exact playingTimersStep_zero p hbl hdo hbk
  · rw [hzero]
    unfold playerAnimStep
    dsimp only
    rw [add_zero, if_neg (not_le.mpr han)]
  · rw [hzero]
    unfold playerAnimStep
    dsimp only
    rw [add_zero, if_neg (not_le.mpr han)]

/-- Witness for the amended C3 at a concrete freeze frame. -/
theorem hit_stop_freeze_witness :
    (frameDeltas (1/10) (1/60)).gameDt = 0 ∧
    playingTimersStep knightPlayer (frameDeltas (1/10) (1/60)).gameDt
      = knightPlayer := by
  have h := hit_stop_freeze (1/10) (1/60) knightPlayer false
    (by norm_num [knightPlayer, resetPlayer, playerInitial, knightClass])
    (by norm_num [knightPlayer, resetPlayer, playerInitial, knightClass])
    (by norm_num [knightPlayer, resetPlayer, playerInitial, knightClass])
    (by norm_num [knightPlayer, resetPlayer, playerInitial, knightClass])
  have hpos : 0 < (frameDeltas (1/10) (1/60)).hitStopTimer := by
    norm_num [frameDeltas]
  exact ⟨(h.2.2 hpos).1, (h.2.2 hpos).2.1⟩

end Beatemup

namespace Beatemup

/-- Every id issued after counter value `c` by a reset-free event run
exceeds `c`. -/
theorem runAttackIds_mem_gt (evs : List SessionEvent)
    (hr : SessionEvent.resetGame ∉ evs) :
    ∀ c : ℤ, ∀ i ∈ (runAttackIds c evs).2, c < i := by
  induction evs with
  | nil =>
    intro c i hi
    simp [runAttackIds] at hi
  | cons ev evs ih =>
    intro c i hi
    cases ev with
    | attackEdge =>
      simp only [runAttackIds, attackIdStep, List.cons_append, List.nil_append,
        List.mem_cons] at hi
      rcases hi with rfl | hi
      · linarith
      · have := ih (fun hm => hr (List.mem_cons_of_mem _ hm)) (c + 1) i hi
        linarith
    | resetGame =>
      exact absurd (List.mem_cons_self _ _) hr

/-- Claim C4 counterexample: an attack, a session reset, and another
attack issue the id list `[1, 1]` — the same attack-instance id is
issued twice across a reset, because `ResetGame` zeroes the counter. -/
theorem attack_id_monotone_cex :
    (runAttackIds 0 [SessionEvent.attackEdge, SessionEvent.resetGame,
        SessionEvent.attackEdge]).2 = [1, 1] ∧
    ¬ (runAttackIds 0 [SessionEvent.attackEdge, SessionEvent.resetGame,
        SessionEvent.attackEdge]).2.Nodup := by
  refine ⟨by decide, by decide⟩

/-- Claim C4 amended: within one session (no `ResetGame` in the run) the
issued melee attack-instance ids strictly increase and are never reused;
`ResetGame` however sets the counter back to 0, so ids are reused across
session restarts. -/
theorem attack_id_monotone_within_session (c : ℤ) (evs : List SessionEvent)
    (hr : SessionEvent.resetGame ∉ evs) :
    (runAttackIds c evs).2.Pairwise (· < ·) ∧
    (runAttackIds c evs).2.Nodup ∧
    attackIdStep c SessionEvent.resetGame = (0, []) := by
  have hpair : ∀ d : ℤ, ∀ evs2 : List SessionEvent,
      SessionEvent.resetGame ∉ evs2 →
      (runAttackIds d evs2).2.Pairwise (· < ·) := by
    intro d evs2 hr2
    induction evs2 generalizing d with
    | nil => simp [runAttackIds]
    | cons ev evs2 ih =>
      cases ev with
      | attackEdge =>
        simp only [runAttackIds, attackIdStep, List.cons_append, List.nil_append,
          List.pairwise_cons]
        refine ⟨?_, ih (d + 1) (fun hm => hr2 (List.mem_cons_of_mem _ hm))⟩
        intro i hi
        have := runAttackIds_mem_gt evs2
          (fun hm => hr2 (List.mem_cons_of_mem _ hm)) (d + 1) i hi
        linarith
      | resetGame =>
        exact absurd (List.mem_cons_self _ _) hr2
  have hp := hpair c evs hr
  exact ⟨hp, hp.imp ne_of_lt, rfl⟩

/-- Witness for the amended C4: two attacks in a fresh session issue
`[1, 2]`, strictly increasing and duplicate-free. -/
theorem attack_id_monotone_within_session_witness :
    (runAttackIds 0 [SessionEvent.attackEdge, SessionEvent.attackEdge]).2.Pairwise
      (· < ·) ∧
    (runAttackIds 0 [SessionEvent.attackEdge, SessionEvent.attackEdge]).2.Nodup := by
  have h := attack_id_monotone_within_session 0
    [SessionEvent.attackEdge, SessionEvent.attackEdge] (by decide)
  exact ⟨h.1, h.2.1⟩

end Beatemup

namespace Beatemup

/-- The bounds of the clamp-after-move pattern of main.cpp lines
476-479. -/
theorem clamp_bounds (lo hi x : ℚ) (h : lo ≤ hi) :
    lo ≤ (if (if x < lo then lo else x) > hi then hi
          else if x < lo then lo else x) ∧
    (if (if x < lo then lo else x) > hi then hi
     else if x < lo then lo else x) ≤ hi := by
  constructor <;> split_ifs <;> linarith

/-- Claim C5 counterexample: a Knight finisher knockback (main.cpp line
843) pushes a Grunt standing at x = 10 to x = -80, outside the lane
`[0, LEVEL_LENGTH]` — the melee knockback displacement is never
clamped. -/
theorem lane_bounds_cex :
    (meleeHitEnemy PlayerClass.KNIGHT true 1 3 20 knightFinisherHitboxLeft 100 0
        GameState.PLAYING (MakeEnemy EnemyType.GRUNT 10 390)).enemy.pos.x = -80 ∧
    (meleeHitEnemy PlayerClass.KNIGHT true 1 3 20 knightFinisherHitboxLeft 100 0
        GameState.PLAYING (MakeEnemy EnemyType.GRUNT 10 390)).enemy.pos.x < 0 ∧
    (meleeHitEnemy PlayerClass.KNIGHT true 1 3 20 knightFinisherHitboxLeft 100 0
        GameState.PLAYING (MakeEnemy EnemyType.GRUNT 10 390)).enemy.alive = true := by
  refine ⟨?_, ?_, ?_⟩ <;>
    norm_num [meleeHitEnemy, MakeEnemy, knightFinisherHitboxLeft, MakeRect,
      RectOverlap, CheckCollisionRecs, meleeDamage, GetComboMultiplier, round_eq]

/-- Claim C5 amended: the player's position is clamped into the lane
after every movement step (normal, dodge-overridden, and blink), and an
enemy's y is clamped after its approach movement; an enemy's x however
is never clamped, and melee knockback can push it outside
`[0, LEVEL_LENGTH]` (see the counterexample). -/
theorem lane_bounds_after_movement (p : Player) (move : Vec2) (dt : ℚ)
    (e : Enemy) (dir : Vec2) :
    (0 ≤ (playerMoveStep p move dt).pos.x ∧
     (playerMoveStep p move dt).pos.x ≤ LEVEL_LENGTH ∧
     GROUND_TOP ≤ (playerMoveStep p move dt).pos.y ∧
     (playerMoveStep p move dt).pos.y ≤ GROUND_BOTTOM) ∧
    (0 ≤ (blinkStep p).pos.x ∧ (blinkStep p).pos.x ≤ LEVEL_LENGTH ∧
     (blinkStep p).pos.y = p.pos.y) ∧
    (GROUND_TOP ≤ (enemyMoveStep e dir dt).pos.y ∧
     (enemyMoveStep e dir dt).pos.y ≤ GROUND_BOTTOM) := by
  have hL : (0 : ℚ) ≤ LEVEL_LENGTH := by norm_num [LEVEL_LENGTH]
  have hG : GROUND_TOP ≤ GROUND_BOTTOM := by
    norm_num [GROUND_TOP, GROUND_BOTTOM]
  refine ⟨?_, ?_, ?_⟩
  · unfold playerMoveStep
    dsimp only
    exact ⟨(clamp_bounds 0 LEVEL_LENGTH _ hL).1,
      (clamp_bounds 0 LEVEL_LENGTH _ hL).2,
      (clamp_bounds GROUND_TOP GROUND_BOTTOM _ hG).1,
      (clamp_bounds GROUND_TOP GROUND_BOTTOM _ hG).2⟩
  · unfold blinkStep
    dsimp only
    exact ⟨(clamp_bounds 0 LEVEL_LENGTH _ hL).1,
      (clamp_bounds 0 LEVEL_LENGTH _ hL).2, rfl⟩
  · unfold enemyMoveStep
    dsimp only
    exact ⟨(clamp_bounds GROUND_TOP GROUND_BOTTOM _ hG).1,
      (clamp_bounds GROUND_TOP GROUND_BOTTOM _ hG).2⟩

end Beatemup

namespace Beatemup

/-- A gated melee hit that brings HP to 0 or below kills: the enemy is
flagged dead, currency spawns per type, and a boss kill moves the phase
to VICTORY. -/
theorem meleeHitEnemy_kill (pc : PlayerClass) (attacking : Bool)
    (aid cs bd : ℤ) (hb : Rect) (px hs : ℚ) (st : GameState) (e : Enemy)
    (hg : meleeGate pc attacking aid hb e)
    (hk : e.hp - meleeDamage pc cs bd ≤ 0) :
    (meleeHitEnemy pc attacking aid cs bd hb px hs st e).enemy.alive = false ∧
    (meleeHitEnemy pc attacking aid cs bd hb px hs st e).state
        = (if e.type = EnemyType.BOSS then GameState.VICTORY else st) ∧
    (meleeHitEnemy pc attacking aid cs bd hb px hs st e).coinsSpawned
        = killRewardCount e.type := by
  obtain ⟨ha, hc, hatt, hid, hlast, hov⟩ := hg
  unfold meleeHitEnemy
  rw [if_neg (by simp [ha]), if_pos ⟨hc, hatt, hid⟩, if_pos ⟨hlast, hov⟩]
  dsimp only
  rw [if_pos hk]
  exact ⟨rfl, rfl, rfl⟩

/-- A gated melee hit that leaves HP positive does not kill: the alive
flag, phase and currency are untouched. -/
theorem meleeHitEnemy_survive (pc : PlayerClass) (attacking : Bool)
    (aid cs bd : ℤ) (hb : Rect) (px hs : ℚ) (st : GameState) (e : Enemy)
    (hg : meleeGate pc attacking aid hb e)
    (hk : ¬ e.hp - meleeDamage pc cs bd ≤ 0) :
    (meleeHitEnemy pc attacking aid cs bd hb px hs st e).enemy.alive = e.alive ∧
    (meleeHitEnemy pc attacking aid cs bd hb px hs st e).state = st ∧
    (meleeHitEnemy pc attacking aid cs bd hb px hs st e).coinsSpawned = 0 := by
  obtain ⟨ha, hc, hatt, hid, hlast, hov⟩ := hg
  unfold meleeHitEnemy
  rw [if_neg (by simp [ha]), if_pos ⟨hc, hatt, hid⟩, if_pos ⟨hlast, hov⟩]
  dsimp only
  rw [if_neg hk]
  exact ⟨rfl, rfl, rfl⟩

/-- A gated projectile hit that brings HP to 0 or below kills, with the
same death handling as melee. -/
theorem projectileHitEnemy_kill (pc : PlayerClass) (proj : Projectile)
    (hs : ℚ) (st : GameState) (e : Enemy)
    (hg : projectileGate pc proj e) (hk : e.hp - proj.damage ≤ 0) :
    (projectileHitEnemy pc proj hs st e).enemy.alive = false ∧
    (projectileHitEnemy pc proj hs st e).state
        = (if e.type = EnemyType.BOSS then GameState.VICTORY else st) ∧
    (projectileHitEnemy pc proj hs st e).coinsSpawned = killRewardCount e.type := by
  obtain ⟨hm, hact, ha, hov, hlast⟩ := hg
  unfold projectileHitEnemy
  rw [if_neg (by simp [hm]), if_neg (by simp [hact]), if_neg (by simp [ha]),
    if_pos hov, if_pos hlast]
  dsimp only
  rw [if_pos hk]
  exact ⟨rfl, rfl, rfl⟩

/-- A gated projectile hit that leaves HP positive does not kill. -/
theorem projectileHitEnemy_survive (pc : PlayerClass) (proj : Projectile)
    (hs : ℚ) (st : GameState) (e : Enemy)
    (hg : projectileGate pc proj e) (hk : ¬ e.hp - proj.damage ≤ 0) :
    (projectileHitEnemy pc proj hs st e).enemy.alive = e.alive ∧
    (projectileHitEnemy pc proj hs st e).state = st ∧
    (projectileHitEnemy pc proj hs st e).coinsSpawned = 0 := by
  obtain ⟨hm, hact, ha, hov, hlast⟩ := hg
  unfold projectileHitEnemy
  rw [if_neg (by simp [hm]), if_neg (by simp [hact]), if_neg (by simp [ha]),
    if_pos hov, if_pos hlast]
  dsimp only
  rw [if_neg hk]
  exact ⟨rfl, rfl, rfl⟩

end Beatemup

namespace Beatemup

/-- Claim C6 counterexample: a Knight finisher (damage 40) on a Grunt
with 10 HP leaves the enemy's stored HP at -30 — enemy HP is not
clamped to zero at the point of mutation. -/
theorem hp_clamped_at_mutation_cex :
    (meleeHitEnemy PlayerClass.KNIGHT true 1 3 20 knightFinisherHitboxRight 100 0
        GameState.PLAYING woundedGrunt).enemy.hp = -30 ∧
    (meleeHitEnemy PlayerClass.KNIGHT true 1 3 20 knightFinisherHitboxRight 100 0
        GameState.PLAYING woundedGrunt).enemy.hp < 0 := by
  constructor <;>
    norm_num [meleeHitEnemy, woundedGrunt, MakeEnemy, knightFinisherHitboxRight,
      MakeRect, RectOverlap, CheckCollisionRecs, meleeDamage, GetComboMultiplier,
      round_eq]

/-- Claim C6 amended: the player's HP is clamped to zero at the point of
mutation and stays in `[0, maxHP]`; enemy HP is not clamped (it can go
negative, see the counterexample), but an enemy whose HP crosses to 0 or
below dies exactly once: dead enemies are skipped by both damage
resolvers, and the alive flag only drops when HP reaches 0 or below. -/
theorem hp_clamping_single_death (pc : PlayerClass) (p : Player)
    (attacking : Bool) (aid cs bd : ℤ) (hb : Rect) (px hs : ℚ)
    (st : GameState) (e : Enemy) (proj : Projectile)
    (hp0 : 0 ≤ p.hp) (hpm : p.hp ≤ p.maxHP) :
    (0 ≤ (windupExpiryStep pc p hs e).1.hp ∧
     (windupExpiryStep pc p hs e).1.hp ≤ p.maxHP ∧
     (windupExpiryStep pc p hs e).1.maxHP = p.maxHP) ∧
    (e.alive = false →
      meleeHitEnemy pc attacking aid cs bd hb px hs st e = ⟨e, hs, st, 0⟩ ∧
      projectileHitEnemy pc proj hs st e = ⟨e, hs, st, 0⟩) ∧
    ((meleeHitEnemy pc attacking aid cs bd hb px hs st e).enemy.alive = false →
      e.alive = true →
      (meleeHitEnemy pc attacking aid cs bd hb px hs st e).enemy.hp ≤ 0) ∧
    ((projectileHitEnemy pc proj hs st e).enemy.alive = false →
      e.alive = true →
      (projectileHitEnemy pc proj hs st e).enemy.hp ≤ 0) := by
  refine ⟨?_, ?_, ?_, ?_⟩
  · have hdmg : 0 ≤ enemyTypeDamage e.type := by cases e.type <;> decide
    have hdiv : 0 ≤ enemyTypeDamage e.type / 3 := Int.ediv_nonneg hdmg (by norm_num)
    unfold windupExpiryStep
    dsimp only
    split_ifs <;>
      exact ⟨by dsimp only; linarith, by dsimp only; linarith, rfl⟩
  · intro hd
    constructor
    · exact meleeHitEnemy_gate_false pc attacking aid cs bd hb px hs st e
        (fun hg => by have h1 := hg.1; rw [hd] at h1; exact absurd h1 (by simp))
    · exact projectileHitEnemy_gate_false pc proj hs st e
        (fun hg => by have h1 := hg.2.2.1; rw [hd] at h1; exact absurd h1 (by simp))
  · intro hdead halive
    by_cases hg : meleeGate pc attacking aid hb e
    · by_cases hk : e.hp - meleeDamage pc cs bd ≤ 0
      · rw [(meleeHitEnemy_gate_true pc attacking aid cs bd hb px hs st e hg).1]
        exact hk
      · rw [(meleeHitEnemy_survive pc attacking aid cs bd hb px hs st e hg hk).1,
          halive] at hdead
        exact absurd hdead (by simp)
    · rw [meleeHitEnemy_gate_false pc attacking aid cs bd hb px hs st e hg] at hdead
      rw [halive] at hdead
      exact absurd hdead (by simp)
  · intro hdead halive
    by_cases hg : projectileGate pc proj e
    · by_cases hk : e.hp - proj.damage ≤ 0
      · rw [(projectileHitEnemy_gate_true pc proj hs st e hg).1]
        exact hk
      · rw [(projectileHitEnemy_survive pc proj hs st e hg hk).1, halive] at hdead
        exact absurd hdead (by simp)
    · rw [projectileHitEnemy_gate_false pc proj hs st e hg] at hdead
      rw [halive] at hdead
      exact absurd hdead (by simp)

/-- Witness for the amended C6: a full-HP Knight keeps HP in `[0, maxHP]`
through a windup resolution, and a dead Grunt is untouched by both
damage resolvers. -/
theorem hp_clamping_single_death_witness :
    0 ≤ (windupExpiryStep PlayerClass.KNIGHT knightPlayer 0 deadGrunt).1.hp ∧
    (windupExpiryStep PlayerClass.KNIGHT knightPlayer 0 deadGrunt).1.hp
        ≤ knightPlayer.maxHP ∧
    meleeHitEnemy PlayerClass.KNIGHT true 1 3 20 knightFinisherHitboxRight 100 0
        GameState.PLAYING deadGrunt
      = ⟨deadGrunt, 0, GameState.PLAYING, 0⟩ ∧
    projectileHitEnemy PlayerClass.KNIGHT mageBolt 0 GameState.PLAYING deadGrunt
      = ⟨deadGrunt, 0, GameState.PLAYING, 0⟩ := by
  have h := hp_clamping_single_death PlayerClass.KNIGHT knightPlayer true 1 3 20
    knightFinisherHitboxRight 100 0 GameState.PLAYING deadGrunt mageBolt
    (by norm_num [knightPlayer, resetPlayer, playerInitial, knightClass])
    (by norm_num [knightPlayer, resetPlayer, playerInitial, knightClass])
  have hd : deadGrunt.alive = false := by norm_num [deadGrunt, MakeEnemy]
  exact ⟨h.1.1, h.1.2.1, (h.2.1 hd).1, (h.2.1 hd).2⟩

end Beatemup

namespace Beatemup

/-- Claim C7: any damage source that brings the boss to 0 HP or below
flips the phase from PLAYING to VICTORY exactly once and spawns exactly
10 currency pickups (3 for a Tank, 1 for a Grunt or Fast enemy); dead
enemies trigger nothing further. -/
theorem boss_kill_victory (pc : PlayerClass) (attacking : Bool)
    (aid cs bd : ℤ) (hb : Rect) (px hs : ℚ) (e : Enemy) (proj : Projectile) :
    (killRewardCount EnemyType.BOSS = 10 ∧ killRewardCount EnemyType.TANK = 3 ∧
     killRewardCount EnemyType.GRUNT = 1 ∧ killRewardCount EnemyType.FAST = 1) ∧
    (meleeGate pc attacking aid hb e → e.hp - meleeDamage pc cs bd ≤ 0 →
      e.type = EnemyType.BOSS →
      (meleeHitEnemy pc attacking aid cs bd hb px hs GameState.PLAYING e).state
          = GameState.VICTORY ∧
      (meleeHitEnemy pc attacking aid cs bd hb px hs
          GameState.PLAYING e).coinsSpawned = 10 ∧
      (meleeHitEnemy pc attacking aid cs bd hb px hs
          GameState.PLAYING e).enemy.alive = false) ∧
    (projectileGate pc proj e → e.hp - proj.damage ≤ 0 →
      e.type = EnemyType.BOSS →
      (projectileHitEnemy pc proj hs GameState.PLAYING e).state
          = GameState.VICTORY ∧
      (projectileHitEnemy pc proj hs GameState.PLAYING e).coinsSpawned = 10 ∧
      (projectileHitEnemy pc proj hs GameState.PLAYING e).enemy.alive = false) ∧
    (∀ st : GameState, e.alive = false →
      (meleeHitEnemy pc attacking aid cs bd hb px hs st e).state = st ∧
      (meleeHitEnemy pc attacking aid cs bd hb px hs st e).coinsSpawned = 0 ∧
      (projectileHitEnemy pc proj hs st e).state = st ∧
      (projectileHitEnemy pc proj hs st e).coinsSpawned = 0) := by
  refine ⟨by refine ⟨rfl, rfl, rfl, rfl⟩, ?_, ?_, ?_⟩
  · intro hg hk hboss
    have h := meleeHitEnemy_kill pc attacking aid cs bd hb px hs
      GameState.PLAYING e hg hk
    refine ⟨?_, ?_, h.1⟩
    · rw [h.2.1, if_pos hboss]
    · rw [h.2.2, hboss]
      rfl
  · intro hg hk hboss
    have h := projectileHitEnemy_kill pc proj hs GameState.PLAYING e hg hk
    refine ⟨?_, ?_, h.1⟩
    · rw [h.2.1, if_pos hboss]
    · rw [h.2.2, hboss]
      rfl
  · intro st hd
    have hm := meleeHitEnemy_gate_false pc attacking aid cs bd hb px hs st e
      (fun hg => by have h1 := hg.1; rw [hd] at h1; exact absurd h1 (by simp))
    have hp := projectileHitEnemy_gate_false pc proj hs st e
      (fun hg => by have h1 := hg.2.2.1; rw [hd] at h1; exact absurd h1 (by simp))
    rw [hm, hp]
    exact ⟨rfl, rfl, rfl, rfl⟩

/-- Witness for C7: a Knight finisher on a boss at 30 HP yields VICTORY
and exactly 10 currency pickups. -/
theorem boss_kill_victory_witness :
    (meleeHitEnemy PlayerClass.KNIGHT true 1 3 20 knightFinisherHitboxRight 100 0
        GameState.PLAYING woundedBoss).state = GameState.VICTORY ∧
    (meleeHitEnemy PlayerClass.KNIGHT true 1 3 20 knightFinisherHitboxRight 100 0
        GameState.PLAYING woundedBoss).coinsSpawned = 10 ∧
    killRewardCount EnemyType.TANK = 3 := by
  have h := boss_kill_victory PlayerClass.KNIGHT true 1 3 20
    knightFinisherHitboxRight 100 0 woundedBoss mageBolt
  have hg : meleeGate PlayerClass.KNIGHT true 1 knightFinisherHitboxRight
      woundedBoss := by
    refine ⟨rfl, Or.inl rfl, rfl, by norm_num,
      by norm_num [woundedBoss, MakeEnemy], ?_⟩
    norm_num [knightFinisherHitboxRight, woundedBoss, MakeEnemy, MakeRect,
      RectOverlap, CheckCollisionRecs]
  have hk : woundedBoss.hp - meleeDamage PlayerClass.KNIGHT 3 20 ≤ 0 := by
    norm_num [woundedBoss, MakeEnemy, meleeDamage, GetComboMultiplier, round_eq]
  have hboss : woundedBoss.type = EnemyType.BOSS := by
    norm_num [woundedBoss, MakeEnemy]
  exact ⟨(h.2.1 hg hk hboss).1, (h.2.1 hg hk hboss).2.1, h.1.2.1⟩

end Beatemup

namespace Beatemup

/-- Claim C8: on windup expiry while overlapping, invincibility zeroes
the damage regardless of block state; otherwise an active Knight block
reduces the per-type damage to floor(damage / 3); otherwise the full
per-type damage applies (clamped at zero HP); and in every case — hit,
mitigated or miss — the enemy leaves windup, enters its fixed 0.22 s
attack animation and resets its cooldown to 1.1 s. -/
theorem windup_damage_resolution (pc : PlayerClass) (p : Player) (hs : ℚ)
    (e : Enemy) :
    (p.invincible = true →
      (windupExpiryStep pc p hs e).1.hp = p.hp ∧
      (windupExpiryStep pc p hs e).2.2 = hs) ∧
    (p.invincible = false → p.blocking = true → pc = PlayerClass.KNIGHT →
      RectOverlap (MakeRect e.pos e.size) (MakeRect p.pos p.size) →
      (windupExpiryStep pc p hs e).1.hp =
        (if p.hp - enemyTypeDamage e.type / 3 < 0 then 0
         else p.hp - enemyTypeDamage e.type / 3)) ∧
    (p.invincible = false → ¬ (p.blocking = true ∧ pc = PlayerClass.KNIGHT) →
      RectOverlap (MakeRect e.pos e.size) (MakeRect p.pos p.size) →
      (windupExpiryStep pc p hs e).1.hp =
        (if p.hp - enemyTypeDamage e.type < 0 then 0
         else p.hp - enemyTypeDamage e.type)) ∧
    ((windupExpiryStep pc p hs e).2.1.windingUp = false ∧
     (windupExpiryStep pc p hs e).2.1.attackingAnim = true ∧
     (windupExpiryStep pc p hs e).2.1.attackAnimTimer = 22/100 ∧
     (windupExpiryStep pc p hs e).2.1.attackCooldown = 11/10) := by
  refine ⟨?_, ?_, ?_, ?_⟩
  · intro hinv
    unfold windupExpiryStep
    dsimp only
    rw [if_pos hinv]
    split_ifs <;> first | exact ⟨rfl, rfl⟩ | (exfalso; linarith)
  · intro hinv hblock hkn hov
    have hdpos : 0 < enemyTypeDamage e.type / 3 := by cases e.type <;> decide
    unfold windupExpiryStep
    dsimp only
    rw [if_pos hov]
    rw [if_neg (show ¬ (p.invincible = true) by simp [hinv])]
    rw [if_pos (show p.blocking = true ∧ pc = PlayerClass.KNIGHT from ⟨hblock, hkn⟩)]
    rw [if_pos (show enemyTypeDamage e.type / 3 > 0 from hdpos)]
  · intro hinv hnoblock hov
    have hdpos : 0 < enemyTypeDamage e.type := by cases e.type <;> decide
    unfold windupExpiryStep
    dsimp only
    rw [if_pos hov]
    rw [if_neg (show ¬ (p.invincible = true) by simp [hinv])]
    rw [if_neg hnoblock]
    rw [if_pos (show enemyTypeDamage e.type > 0 from hdpos)]
  · unfold windupExpiryStep
    dsimp only
    split_ifs <;> exact ⟨rfl, rfl, rfl, rfl⟩

/-- Witness for C8: a blocking, non-invincible Knight overlapped by a
Tank takes exactly floor(13 / 3) = 4 damage (170 to 166), and the Tank
enters its attack animation with its cooldown reset. -/
theorem windup_damage_resolution_witness :
    (windupExpiryStep PlayerClass.KNIGHT { knightPlayer with blocking := true }
        0 tankAttacker).1.hp = 166 ∧
    (windupExpiryStep PlayerClass.KNIGHT { knightPlayer with blocking := true }
        0 tankAttacker).2.1.attackingAnim = true ∧
    (windupExpiryStep PlayerClass.KNIGHT { knightPlayer with blocking := true }
        0 tankAttacker).2.1.attackCooldown = 11/10 := by
  have h := windup_damage_resolution PlayerClass.KNIGHT
    { knightPlayer with blocking := true } 0 tankAttacker
  have hov : RectOverlap (MakeRect tankAttacker.pos tankAttacker.size)
      (MakeRect { knightPlayer with blocking := true }.pos
        { knightPlayer with blocking := true }.size) := by
    norm_num [tankAttacker, MakeEnemy, knightPlayer, resetPlayer, playerInitial,
      knightClass, MakeRect, RectOverlap, CheckCollisionRecs, GROUND_TOP,
      GROUND_BOTTOM]
  have hhp := h.2.1
    (by norm_num [knightPlayer, resetPlayer, playerInitial, knightClass]) rfl rfl hov
  refine ⟨hhp.trans ?_, h.2.2.2.2.1, h.2.2.2.2.2.2⟩
  norm_num [knightPlayer, resetPlayer, playerInitial, knightClass, tankAttacker,
    MakeEnemy, enemyTypeDamage]

end Beatemup

namespace Beatemup

/-- Claim C9: the purchase cost of track `i` at level `L` is
`baseCost[i] * (1 + L)` and strictly increases with each purchase; a
purchase succeeds iff currency covers the cost, deducting exactly the
cost and applying the track's fixed increment — damage +3, max-HP +15
with HP set to the new maximum, or speed +20 — with no level cap. -/
theorem upgrade_purchase_correct (p : Player) (i : ℤ)
    (hi : i = 0 ∨ i = 1 ∨ i = 2) :
    (GetUpgradeCost p 0 = 5 * (1 + p.damageLevel) ∧
     GetUpgradeCost p 1 = 5 * (1 + p.healthLevel) ∧
     GetUpgradeCost p 2 = 5 * (1 + p.speedLevel)) ∧
    GetUpgradeCost p i < GetUpgradeCost (ApplyUpgrade p i) i ∧
    (p.coins < GetUpgradeCost p i → shopPurchase p i = p) ∧
    (GetUpgradeCost p i ≤ p.coins →
      shopPurchase p i
          = ApplyUpgrade { p with coins := p.coins - GetUpgradeCost p i } i ∧
      (shopPurchase p i).coins = p.coins - GetUpgradeCost p i) ∧
    ApplyUpgrade p 0 = { p with damageLevel := p.damageLevel + 1,
                                baseDamage := p.baseDamage + 3 } ∧
    ApplyUpgrade p 1 = { p with healthLevel := p.healthLevel + 1,
                                maxHP := p.maxHP + 15, hp := p.maxHP + 15 } ∧
    (ApplyUpgrade p 1).hp = (ApplyUpgrade p 1).maxHP ∧
    ApplyUpgrade p 2 = { p with speedLevel := p.speedLevel + 1,
                                speed := p.speed + 20 } := by
  refine ⟨⟨rfl, rfl, rfl⟩, ?_, ?_, ?_, rfl, rfl, rfl, rfl⟩
  · rcases hi with rfl | rfl | rfl <;>
      · show (5 : ℤ) * _ < 5 * _
        dsimp only [ApplyUpgrade, GetUpgradeCost]
        norm_num
  · intro hlt
    unfold shopPurchase
    rw [if_neg (not_le.mpr hlt)]
  · intro hge
    unfold shopPurchase
    rw [if_pos hge]
    refine ⟨rfl, ?_⟩
    rcases hi with rfl | rfl | rfl <;> rfl

/-- Witness for C9: a Knight with 7 coins buys the max-HP track at level
0 for cost 5, ending with 2 coins, and HP equal to the new maximum. -/
theorem upgrade_purchase_correct_witness :
    GetUpgradeCost { knightPlayer with coins := 7 } 1 = 5 ∧
    (shopPurchase { knightPlayer with coins := 7 } 1).coins = 2 ∧
    (shopPurchase { knightPlayer with coins := 7 } 1).hp
        = (shopPurchase { knightPlayer with coins := 7 } 1).maxHP := by
  have h := upgrade_purchase_correct { knightPlayer with coins := 7 } 1
    (Or.inr (Or.inl rfl))
  have hc : GetUpgradeCost { knightPlayer with coins := 7 } 1 = 5 := by
    rw [h.1.2.1]
    norm_num [knightPlayer, resetPlayer, playerInitial, knightClass]
  have hge : GetUpgradeCost { knightPlayer with coins := 7 } 1
      ≤ ({ knightPlayer with coins := 7 } : Player).coins := by
    rw [hc]
    norm_num
  have hpur := h.2.2.2.1 hge
  refine ⟨hc, ?_, ?_⟩
  · rw [hpur.2, hc]
    norm_num
  · norm_num [shopPurchase, GetUpgradeCost, shopBaseCosts, ApplyUpgrade,
      knightPlayer, resetPlayer, playerInitial, knightClass]

end Beatemup

namespace Beatemup

/-- Claim C10: a frame spent in the SHOP phase changes no world state —
enemies, coins, projectiles, spawn timer, boss flags, instance counters
and the player's position, combat and ability state are all untouched;
only the shop selection, the phase (back to PLAYING on exit input), the
globally decaying hit-stop timer, and — exactly on a confirm press with
sufficient currency — the purchase outcome on the player may change. -/
theorem shop_frame_pure (rawDt : ℚ) (inp : Input) (w : World)
    (hst : w.state = GameState.SHOP) :
    (shopFrame rawDt inp w).enemies = w.enemies ∧
    (shopFrame rawDt inp w).coins = w.coins ∧
    (shopFrame rawDt inp w).projectiles = w.projectiles ∧
    (shopFrame rawDt inp w).bossSpawned = w.bossSpawned ∧
    (shopFrame rawDt inp w).bossDefeated = w.bossDefeated ∧
    (shopFrame rawDt inp w).enemySpawnTimer = w.enemySpawnTimer ∧
    (shopFrame rawDt inp w).attackCounter = w.attackCounter ∧
    (shopFrame rawDt inp w).projectileCounter = w.projectileCounter ∧
    (shopFrame rawDt inp w).hitStopTimer
        = (frameDeltas w.hitStopTimer rawDt).hitStopTimer ∧
    (shopFrame rawDt inp w).state
        = (if inp.tabPressed ∨ inp.escPressed then GameState.PLAYING
           else GameState.SHOP) ∧
    (shopFrame rawDt inp w).shopSelection
        = shopSelStep inp.downPressed inp.upPressed w.shopSelection ∧
    (shopFrame rawDt inp w).player
        = (if inp.enterPressed
           then shopPurchase w.player
             (shopSelStep inp.downPressed inp.upPressed w.shopSelection)
           else w.player) ∧
    (∀ q : Player, ∀ j : ℤ,
      (shopPurchase q j).pos = q.pos ∧ (shopPurchase q j).size = q.size ∧
      (shopPurchase q j).facingRight = q.facingRight ∧
      (shopPurchase q j).attacking = q.attacking ∧
      (shopPurchase q j).attackTimer = q.attackTimer ∧
      (shopPurchase q j).attackDuration = q.attackDuration ∧
      (shopPurchase q j).comboTimer = q.comboTimer ∧
      (shopPurchase q j).comboStep = q.comboStep ∧
      (shopPurchase q j).attackHitbox = q.attackHitbox ∧
      (shopPurchase q j).blocking = q.blocking ∧
      (shopPurchase q j).blockTimer = q.blockTimer ∧
      (shopPurchase q j).blockCooldownTimer = q.blockCooldownTimer ∧
      (shopPurchase q j).dodging = q.dodging ∧
      (shopPurchase q j).dodgeTimer = q.dodgeTimer ∧
      (shopPurchase q j).dodgeCooldownTimer = q.dodgeCooldownTimer ∧
      (shopPurchase q j).blinkCooldownTimer = q.blinkCooldownTimer ∧
      (shopPurchase q j).invincible = q.invincible ∧
      (shopPurchase q j).invincibleTimer = q.invincibleTimer ∧
      (shopPurchase q j).currentAttackId = q.currentAttackId ∧
      (shopPurchase q j).animFrame = q.animFrame ∧
      (shopPurchase q j).animTimer = q.animTimer ∧
      (q.coins < GetUpgradeCost q j → shopPurchase q j = q)) := by
  have hfields : ∀ q : Player, ∀ j : ℤ,
      (shopPurchase q j).pos = q.pos ∧ (shopPurchase q j).size = q.size ∧
      (shopPurchase q j).facingRight = q.facingRight ∧
      (shopPurchase q j).attacking = q.attacking ∧
      (shopPurchase q j).attackTimer = q.attackTimer ∧
      (shopPurchase q j).attackDuration = q.attackDuration ∧
      (shopPurchase q j).comboTimer = q.comboTimer ∧
      (shopPurchase q j).comboStep = q.comboStep ∧
      (shopPurchase q j).attackHitbox = q.attackHitbox ∧
      (shopPurchase q j).blocking = q.blocking ∧
      (shopPurchase q j).blockTimer = q.blockTimer ∧
      (shopPurchase q j).blockCooldownTimer = q.blockCooldownTimer ∧
      (shopPurchase q j).dodging = q.dodging ∧
      (shopPurchase q j).dodgeTimer = q.dodgeTimer ∧
      (shopPurchase q j).dodgeCooldownTimer = q.dodgeCooldownTimer ∧
      (shopPurchase q j).blinkCooldownTimer = q.blinkCooldownTimer ∧
      (shopPurchase q j).invincible = q.invincible ∧
      (shopPurchase q j).invincibleTimer = q.invincibleTimer ∧
      (shopPurchase q j).currentAttackId = q.currentAttackId ∧
      (shopPurchase q j).animFrame = q.animFrame ∧
      (shopPurchase q j).animTimer = q.animTimer ∧
      (q.coins < GetUpgradeCost q j → shopPurchase q j = q) := by
    intro q j
    unfold shopPurchase ApplyUpgrade
    dsimp only
    split_ifs with hge <;>
      first
      | exact ⟨rfl, rfl, rfl, rfl, rfl, rfl, rfl, rfl, rfl, rfl, rfl, rfl, rfl,
          rfl, rfl, rfl, rfl, rfl, rfl, rfl, rfl,
          fun hlt => absurd hge (not_le.mpr hlt)⟩
      | exact ⟨rfl, rfl, rfl, rfl, rfl, rfl, rfl, rfl, rfl, rfl, rfl, rfl, rfl,
          rfl, rfl, rfl, rfl, rfl, rfl, rfl, rfl, fun hlt => rfl⟩
  unfold shopFrame
  dsimp only
  rw [if_pos hst]
  unfold shopFrameStep shopSelStep
  dsimp only
  refine ⟨rfl, rfl, rfl, rfl, rfl, rfl, rfl, rfl, rfl, ?_, rfl, rfl, hfields⟩
  split_ifs with h
  · rfl
  · exact hst

/-- Witness for C10: one SHOP frame with a confirm press on a concrete
world leaves the enemy, coin and projectile collections and the phase
untouched. -/
theorem shop_frame_pure_witness :
    (shopFrame (1/60) { enterPressed := true } shopWorld).enemies
        = shopWorld.enemies ∧
    (shopFrame (1/60) { enterPressed := true } shopWorld).projectiles
        = shopWorld.projectiles ∧
    (shopFrame (1/60) { enterPressed := true } shopWorld).state
        = GameState.SHOP := by
  have h := shop_frame_pure (1/60) { enterPressed := true } shopWorld rfl
  refine ⟨h.1, h.2.2.1, ?_⟩
  rw [h.2.2.2.2.2.2.2.2.2.1]
  norm_num

end Beatemup
